import Mathlib

/-!
Verification of the tool-augmented generation loop of
`backend/ai_generator.py` (`AIGenerator.generate_response`).

The loop is embedded shallowly:
* a `ContentBlock` is one typed block of an inference response
  (`text` blocks carry a `.text` field, `tool_use` blocks carry
  `id`, `name` and `input`);
* a `Response` is what one inference call returns on success:
  a `stop_reason` string and a list of content blocks;
* the inference capability (`_call_anthropic_api`) is an oracle
  `Nat → Except String Response`, indexed by the number of calls made so
  far inside one `generate_response` invocation; `Except.error e` stands
  for the call raising an exception whose `str` is `e`;
* a tool manager is a function from tool name and keyword arguments to
  `Except String String` (`Except.error e` stands for
  `execute_tool` raising an exception whose `str` is `e`);
* `RunResult` records the returned string (`Except.ok`) or the escaped
  exception (`Except.error`), the parameters of every inference call in
  order, and the final value of the `round_count` variable.

The `while round_count < max_rounds` loop of the source increments
`round_count` by exactly one on every iteration that does not return,
so it is embedded with a fuel argument that starts at `max_rounds` and
equals `max_rounds - round_count` at every recursive call.
-/

/-- The module-level `SYSTEM_PROMPT` constant of `AIGenerator`,
verbatim (including its leading space, trailing newline and the
mojibake dash of the source file). -/
def SYSTEM_PROMPT : String := " You are an AI assistant specialized in course materials and educational content with access to comprehensive search tools for course information.\n\nAvailable Tools:\n- **search_course_content**: Search within course materials for specific content, topics, or detailed educational information\n- **get_course_outline**: Get complete course outlines including course title, course link, and full lesson listings\n\nTool Usage Guidelines:\n- **Course outline requests**: Use get_course_outline for questions about course structure, lesson lists, or course overviews\n- **Content/topic questions**: Use search_course_content for specific course content, explanations, or detailed materials\n- **Sequential tool usage**: You may use multiple tool calls across up to 2 rounds to gather comprehensive information for complex queries\n- **Multi-round scenarios**: Use sequential calls for comparisons, multi-part questions, or when information from different courses/lessons is needed\n- Synthesize tool results into accurate, fact-based responses\n- If tool yields no results, state this clearly without offering alternatives\n\nResponse Protocol:\n- **General knowledge questions**: Answer using existing knowledge without using tools\n- **Course outline queries**: Use get_course_outline to provide course title, course link, and complete lesson breakdown\n- **Course content queries**: Use search_course_content first, then answer\n- **Complex queries**: Break down into multiple tool calls if needed (e.g., get outline first, then search for specific content)\n- **No meta-commentary**:\n - Provide direct answers only â€” no reasoning process, tool explanations, or question-type analysis\n - Do not mention \"based on the search results\" or \"using the tool\"\n\nAll responses must be:\n1. **Brief, Concise and focused** - Get to the point quickly\n2. **Educational** - Maintain instructional value\n3. **Clear** - Use accessible language\n4. **Example-supported** - Include relevant examples when they aid understanding\nProvide only the direct answer to what was asked.\n"

/-- One typed content block of an inference response. A `text` block has
a `.text` attribute; a `tool_use` block has `.id`, `.name` and `.input`
(the keyword-argument mapping) and no `.text` attribute. -/
inductive ContentBlock where
  | text : String → ContentBlock
  | tool_use : String → String → List (String × String) → ContentBlock
deriving DecidableEq, Repr

/-- One entry of the `tool_results` list built inside a tool round:
`{"type": "tool_result", "tool_use_id": ..., "content": ...}`. -/
structure ToolResult where
  tool_use_id : String
  content : String
deriving DecidableEq, Repr

/-- The content of one entry of the `messages` list: the initial user
message is plain text, an assistant message carries the content blocks of
a response, and a tool-results user message carries a list of
`ToolResult`s. -/
inductive MessageContent where
  | text : String → MessageContent
  | blocks : List ContentBlock → MessageContent
  | toolResults : List ToolResult → MessageContent
deriving DecidableEq, Repr

/-- One entry of the `messages` list: a role (`"user"` or `"assistant"`)
and a content. -/
structure Message where
  role : String
  content : MessageContent
deriving DecidableEq, Repr

/-- A successful inference response: `stop_reason` and `content`. -/
structure Response where
  stop_reason : String
  content : List ContentBlock
deriving DecidableEq, Repr

/-- A tool manager: `execute_tool(name, **input)` returning either the
result string or a raised exception rendered as a string. -/
def ToolManager : Type := String → List (String × String) → Except String String

/-- The parameters of one inference call, as assembled into `api_params`:
the `messages` list, the `system` string, and the `tools` key
(`none` when the key is absent; the `tool_choice` key is present exactly
when `tools` is). The constant `base_params` entries (model, temperature,
max_tokens) are spread into every call unchanged and carry no
information, so they are not recorded. -/
structure ApiParams where
  messages : List Message
  system : String
  tools : Option (List String)
deriving DecidableEq, Repr

/-- The observable outcome of one `generate_response` invocation:
the returned string (`Except.ok`) or the exception that escaped
(`Except.error`), the parameter record of every inference call in order,
and the final value of the `round_count` local variable. -/
structure RunResult where
  outcome : Except String String
  apiCalls : List ApiParams
  rounds : Nat
deriving Repr

/-- `max_rounds = 2` of the source. -/
def max_rounds : Nat := 2

/-- `response.content[0].text`: the unguarded read performed by both
text-returning paths of the source. It faults (IndexError) on an empty
content list and faults (AttributeError) when the first block is a
`tool_use` block, which has no `.text` attribute. -/
def first_block_text : List ContentBlock → Except String String
  | [] => Except.error "list index out of range"
  | ContentBlock.text t :: _ => Except.ok t
  | ContentBlock.tool_use _ _ _ :: _ => Except.error "ToolUseBlock object has no attribute text"

/-- The `for content_block in response.content` loop of a tool round:
skips non-`tool_use` blocks; for each `tool_use` block calls
`tool_manager.execute_tool(name, **input)`, appending on success a
`ToolResult` with the result, and on a raised exception a `ToolResult`
whose content is the failure string, while setting the
`tool_execution_failed` flag; processing always continues through the
remaining blocks. Returns the `tool_results` list (in block order) and
the final flag. -/
def execute_tools (tm : ToolManager) : List ContentBlock → List ToolResult × Bool
  | [] => ([], false)
  | ContentBlock.text _ :: rest => execute_tools tm rest
  | ContentBlock.tool_use i n inp :: rest =>
    let r := execute_tools tm rest
    match tm n inp with
    | Except.ok t => (⟨i, t⟩ :: r.1, r.2)
    | Except.error e => (⟨i, "Tool execution failed: " ++ e⟩ :: r.1, true)

/-- The code after the loop (lines 209–220): one more inference call with
the accumulated messages and the same system content, WITHOUT the
`tools` key; returns `final_response.content[0].text`, or the
`"Error generating final response: ..."` string if the call (or the
attribute read inside the same `try`) raises. -/
def final_call (sys : String) (messages : List Message)
    (api : Nat → Except String Response) (call_idx : Nat)
    (trace : List ApiParams) (round_count : Nat) : RunResult :=
  let trace := trace ++ [⟨messages, sys, none⟩]
  match api call_idx with
  | Except.error e => ⟨Except.ok ("Error generating final response: " ++ e), trace, round_count⟩
  | Except.ok resp =>
    match first_block_text resp.content with
    | Except.ok t => ⟨Except.ok t, trace, round_count⟩
    | Except.error e => ⟨Except.ok ("Error generating final response: " ++ e), trace, round_count⟩

/-- The `return response.content[0].text` statement at line 199,
executed inside the `try` of the loop body: if the read raises, the
`except` at line 201 re-raises when `round_count == 0` and otherwise
returns the `"Error in round ..."` string. -/
def return_direct (blocks : List ContentBlock) (trace : List ApiParams)
    (round_count : Nat) : RunResult :=
  match first_block_text blocks with
  | Except.ok t => ⟨Except.ok t, trace, round_count⟩
  | Except.error e =>
    if round_count = 0 then ⟨Except.error e, trace, round_count⟩
    else ⟨Except.ok ("Error in round " ++ toString (round_count + 1) ++ ": " ++ e), trace, round_count⟩

/-- The `while round_count < max_rounds` loop (lines 136–207). `fuel`
equals `max_rounds - round_count` at every call, so `fuel = 0` is
exactly the loop condition failing and falls through to `final_call`.
Each iteration records the call parameters (`tools_p` is the `tools`
key: the catalog when truthy, else absent), consumes the next oracle
outcome, and then follows the source: an oracle exception propagates
when `round_count == 0` and becomes the `"Error in round ..."` string
otherwise; a `tool_use` stop with a tool manager runs a tool round
(append assistant message, run `execute_tools`, append the combined
tool-results user message unless empty, break to `final_call` when the
failure flag is set, else continue); any other outcome returns
`response.content[0].text` through `return_direct`. -/
def run_rounds (sys : String) (tools_p : Option (List String))
    (tm : Option ToolManager) (api : Nat → Except String Response) :
    Nat → Nat → Nat → List Message → List ApiParams → RunResult
  | 0, round_count, call_idx, _messages, trace =>
    final_call sys _messages api call_idx trace round_count
  | fuel + 1, round_count, call_idx, messages, trace =>
    let trace := trace ++ [⟨messages, sys, tools_p⟩]
    match api call_idx with
    | Except.error e =>
      if round_count = 0 then ⟨Except.error e, trace, round_count⟩
      else ⟨Except.ok ("Error in round " ++ toString (round_count + 1) ++ ": " ++ e), trace, round_count⟩
    | Except.ok resp =>
      if resp.stop_reason = "tool_use" then
        match tm with
        | some mgr =>
          let round_count := round_count + 1
          let messages := messages ++ [⟨"assistant", MessageContent.blocks resp.content⟩]
          let r := execute_tools mgr resp.content
          let messages :=
            if r.1.isEmpty then messages
            else messages ++ [⟨"user", MessageContent.toolResults r.1⟩]
          if r.2 then final_call sys messages api (call_idx + 1) trace round_count
          else run_rounds sys tools_p tm api fuel round_count (call_idx + 1) messages trace
        | none => return_direct resp.content trace round_count
      else return_direct resp.content trace round_count

/-- Lines 122–127: `system_content` is the prompt followed by the
delimited previous-conversation section when `conversation_history` is
truthy (present and non-empty), else the prompt verbatim. -/
def build_system_content (conversation_history : Option String) : String :=
  match conversation_history with
  | some h => if h = "" then SYSTEM_PROMPT else SYSTEM_PROMPT ++ "\n\nPrevious conversation:\n" ++ h
  | none => SYSTEM_PROMPT

/-- Lines 144–147: the `tools` key is added to `api_params` exactly when
the `tools` argument is truthy (present and non-empty), and then holds
the catalog itself. -/
def tools_param (tools : Option (List String)) : Option (List String) :=
  match tools with
  | some l => if l.isEmpty then none else some l
  | none => none

/-- `AIGenerator.generate_response(query, conversation_history, tools,
tool_manager)`, with the inference capability supplied as an oracle. -/
def generate_response (query : String) (conversation_history : Option String)
    (tools : Option (List String)) (tool_manager : Option ToolManager)
    (api : Nat → Except String Response) : RunResult :=
  run_rounds (build_system_content conversation_history) (tools_param tools)
    tool_manager api max_rounds 0 0 [⟨"user", MessageContent.text query⟩] []

/-- Modelled from the spec: the claim phrase "the first text block
available" of the response content — the text of the first block of
type `text`, wherever it occurs in the list, if any. Used only to
compare the claimed behaviour with the behaviour of the source. -/
def spec_first_available_text : List ContentBlock → Option String
  | [] => none
  | ContentBlock.text t :: _ => some t
  | ContentBlock.tool_use _ _ _ :: rest => spec_first_available_text rest


/-!
Concrete oracles and managers used by the per-claim witness theorems.
-/

/-- A tool manager whose every dispatch succeeds, for concrete two-round runs. -/
def c1mgr : ToolManager := fun _ _ => Except.ok "Tool execution result"

/-- A first-round tool-use response requesting one outline lookup. -/
def c1r0 : Response :=
  ⟨"tool_use", [ContentBlock.tool_use "toolu_07" "get_course_outline" [("course_name", "MCP")]]⟩

/-- A second-round tool-use response requesting one content search. -/
def c1r1 : Response :=
  ⟨"tool_use", [ContentBlock.tool_use "toolu_08" "search_course_content" [("query", "lesson 2")]]⟩

/-- An oracle presenting two tool-use responses and then a final text. -/
def c1api : Nat → Except String Response := fun n =>
  match n with
  | 0 => Except.ok c1r0
  | 1 => Except.ok c1r1
  | _ => Except.ok ⟨"end_turn", [ContentBlock.text "Final synthesized response"]⟩

/-- A tool manager whose every dispatch succeeds, for the inference-failure
runs. -/
def c2mgr : ToolManager := fun _ _ => Except.ok "Tool execution result"

/-- A tool-use response with a single tool-invocation block. -/
def c2respTool : Response :=
  ⟨"tool_use", [ContentBlock.tool_use "toolu_02" "search_course_content" [("query", "ml")]]⟩

/-- An oracle whose very first inference call raises. -/
def c2api_first_fails : Nat → Except String Response := fun _ => Except.error "connection refused"

/-- An oracle whose first call requests a tool and whose second call raises. -/
def c2api_second_fails : Nat → Except String Response := fun n =>
  match n with
  | 0 => Except.ok c2respTool
  | _ => Except.error "rate limited"

/-- A tool manager whose every dispatch raises. -/
def c3mgr : ToolManager := fun _ _ => Except.error "search index unavailable"

/-- A tool-use response with two tool-invocation blocks, both of which will
fault. -/
def c3resp : Response :=
  ⟨"tool_use", [ContentBlock.tool_use "toolu_03" "search_course_content" [("query", "ml")],
                ContentBlock.tool_use "toolu_04" "get_course_outline" [("course_name", "MCP")]]⟩

/-- An oracle presenting the faulting tool round and then a synthesis text. -/
def c3api : Nat → Except String Response := fun n =>
  match n with
  | 0 => Except.ok c3resp
  | _ => Except.ok ⟨"end_turn", [ContentBlock.text "degraded synthesis"]⟩

/-- A tool manager answering every dispatch with a string naming the tool. -/
def c4mgr : ToolManager := fun n args =>
  Except.ok ("result of " ++ n ++ " with " ++ toString args.length ++ " args")

/-- A tool-use response mixing a text block with two tool-invocation blocks. -/
def c4resp : Response :=
  ⟨"tool_use", [ContentBlock.text "Let me search.",
                ContentBlock.tool_use "toolu_05" "search_course_content" [("query", "ml")],
                ContentBlock.tool_use "toolu_06" "get_course_outline" [("course_name", "MCP")]]⟩

/-- An oracle presenting one mixed tool round and then a final text. -/
def c4api : Nat → Except String Response := fun n =>
  match n with
  | 0 => Except.ok c4resp
  | _ => Except.ok ⟨"end_turn", [ContentBlock.text "combined answer"]⟩

/-- A plain terminal response that does not signal tool use. -/
def c5resp : Response := ⟨"end_turn", [ContentBlock.text "Test response"]⟩

/-- An oracle answering every call with the plain terminal response. -/
def c5api : Nat → Except String Response := fun _ => Except.ok c5resp

/-- A tool-use response whose FIRST block is the tool-invocation block and whose
text block comes second. -/
def c6resp : Response :=
  ⟨"tool_use", [ContentBlock.tool_use "toolu_01" "search_course_content" [("query", "ml")],
                ContentBlock.text "hello"]⟩

/-- An oracle answering every call with that response. -/
def c6api : Nat → Except String Response := fun _ => Except.ok c6resp

/-- A tool-use response whose first block is a text block. -/
def c6resp2 : Response := ⟨"tool_use", [ContentBlock.text "partial answer"]⟩

/-- An oracle answering every call with that response. -/
def c6api2 : Nat → Except String Response := fun _ => Except.ok c6resp2

/-- A plain single-answer oracle. -/
def c7api : Nat → Except String Response :=
  fun _ => Except.ok ⟨"end_turn", [ContentBlock.text "answer"]⟩

/-- A terminal response with an EMPTY content list. -/
def c8resp : Response := ⟨"end_turn", []⟩

/-- An oracle answering every call with the empty-content response. -/
def c8api : Nat → Except String Response := fun _ => Except.ok c8resp

/-- A tool manager (never consulted in the C9 runs). -/
def c9mgr : ToolManager := fun _ _ => Except.ok "unused"

/-- A tool-use-stop response containing no tool-invocation block, only text. -/
def c9resp0 : Response := ⟨"tool_use", [ContentBlock.text "thinking about tools"]⟩

/-- A second tool-use-stop response containing no tool-invocation block. -/
def c9resp1 : Response := ⟨"tool_use", [ContentBlock.text "still thinking"]⟩

/-- An oracle presenting the two block-free tool-use responses and then a final
text. -/
def c9api : Nat → Except String Response := fun n =>
  match n with
  | 0 => Except.ok c9resp0
  | 1 => Except.ok c9resp1
  | _ => Except.ok ⟨"end_turn", [ContentBlock.text "forced synthesis"]⟩

/-- A plain single-answer oracle. -/
def c10api : Nat → Except String Response :=
  fun _ => Except.ok ⟨"end_turn", [ContentBlock.text "plain answer"]⟩


/-!
General lemmas about the embedded loop.
-/

/-- The final synthesis call appends exactly one parameter record, with no
`tools` key. -/
theorem final_call_apiCalls (sys : String) (msgs : List Message)
    (api : Nat → Except String Response) (ci : Nat) (tr : List ApiParams) (rc : Nat) :
    (final_call sys msgs api ci tr rc).apiCalls = tr ++ [⟨msgs, sys, none⟩] := by
  unfold final_call
  cases api ci with
  | error e => rfl
  | ok resp => cases h : first_block_text resp.content <;> simp [h]

/-- The final synthesis call leaves `round_count` unchanged. -/
theorem final_call_rounds (sys : String) (msgs : List Message)
    (api : Nat → Except String Response) (ci : Nat) (tr : List ApiParams) (rc : Nat) :
    (final_call sys msgs api ci tr rc).rounds = rc := by
  unfold final_call
  cases api ci with
  | error e => rfl
  | ok resp => cases h : first_block_text resp.content <;> simp [h]

/-- The direct-return path issues no inference call. -/
theorem return_direct_apiCalls (blocks : List ContentBlock) (tr : List ApiParams) (rc : Nat) :
    (return_direct blocks tr rc).apiCalls = tr := by
  unfold return_direct
  cases h : first_block_text blocks with
  | ok t => rfl
  | error e => by_cases hr : rc = 0 <;> simp [hr]

/-- The direct-return path leaves `round_count` unchanged. -/
theorem return_direct_rounds (blocks : List ContentBlock) (tr : List ApiParams) (rc : Nat) :
    (return_direct blocks tr rc).rounds = rc := by
  unfold return_direct
  cases h : first_block_text blocks with
  | ok t => rfl
  | error e => by_cases hr : rc = 0 <;> simp [hr]

/-- The loop only ever appends to the call trace: the trace argument is a prefix
of the recorded calls. -/
theorem run_rounds_apiCalls_accum (sys : String) (tp : Option (List String))
    (tm : Option ToolManager) (api : Nat → Except String Response) :
    ∀ (fuel rc ci : Nat) (msgs : List Message) (tr : List ApiParams),
    (run_rounds sys tp tm api fuel rc ci msgs tr).apiCalls =
      tr ++ (run_rounds sys tp tm api fuel rc ci msgs []).apiCalls := by
  intro fuel
  induction fuel with
  | zero =>
    intro rc ci msgs tr
    simp only [run_rounds, final_call_apiCalls, List.nil_append]
  | succ fuel ih =>
    intro rc ci msgs tr
    simp only [run_rounds]
    cases hapi : api ci with
    | error e =>
      by_cases hr : rc = 0 <;> simp [hr]
    | ok resp =>
      by_cases hs : resp.stop_reason = "tool_use"
      · simp only [hs, if_true]
        cases tm with
        | none => simp [return_direct_apiCalls]
        | some mgr =>
          by_cases hf : (execute_tools mgr resp.content).2
          · simp [hf, final_call_apiCalls]
          · simp only [hf, if_false, Bool.false_eq_true, List.nil_append]
            rw [ih _ _ _ (tr ++ [ApiParams.mk msgs sys tp]), ih _ _ _ ([ApiParams.mk msgs sys tp])]
            simp
      · simp [hs, return_direct_apiCalls]

/-- The final `round_count` is bounded by the entry `round_count` plus the
remaining fuel: the counter never exceeds `max_rounds`. -/
theorem run_rounds_rounds_le (sys : String) (tp : Option (List String))
    (tm : Option ToolManager) (api : Nat → Except String Response) :
    ∀ (fuel rc ci : Nat) (msgs : List Message) (tr : List ApiParams),
    (run_rounds sys tp tm api fuel rc ci msgs tr).rounds ≤ rc + fuel := by
  intro fuel
  induction fuel with
  | zero =>
    intro rc ci msgs tr
    simp [run_rounds, final_call_rounds]
  | succ fuel ih =>
    intro rc ci msgs tr
    simp only [run_rounds]
    cases hapi : api ci with
    | error e =>
      by_cases hr : rc = 0 <;> simp [hr]
    | ok resp =>
      by_cases hs : resp.stop_reason = "tool_use"
      · simp only [hs, if_true]
        cases tm with
        | none => rw [return_direct_rounds]; omega
        | some mgr =>
          by_cases hf : (execute_tools mgr resp.content).2
          · simp only [hf, if_true]; rw [final_call_rounds]; omega
          · simp only [hf, if_false, Bool.false_eq_true]
            refine le_trans (ih _ _ _ _) ?_
            omega
      · simp only [hs, if_false]; rw [return_direct_rounds]; omega

/-- The loop makes at most `fuel + 1` inference calls beyond those already
recorded. -/
theorem run_rounds_apiCalls_len (sys : String) (tp : Option (List String))
    (tm : Option ToolManager) (api : Nat → Except String Response) :
    ∀ (fuel rc ci : Nat) (msgs : List Message) (tr : List ApiParams),
    (run_rounds sys tp tm api fuel rc ci msgs tr).apiCalls.length ≤ tr.length + fuel + 1 := by
  intro fuel
  induction fuel with
  | zero =>
    intro rc ci msgs tr
    simp [run_rounds, final_call_apiCalls]
  | succ fuel ih =>
    intro rc ci msgs tr
    simp only [run_rounds]
    cases hapi : api ci with
    | error e =>
      by_cases hr : rc = 0 <;> simp [hr]
    | ok resp =>
      by_cases hs : resp.stop_reason = "tool_use"
      · simp only [hs, if_true]
        cases tm with
        | none => rw [return_direct_apiCalls]; simp
        | some mgr =>
          by_cases hf : (execute_tools mgr resp.content).2
          · simp only [hf, if_true]; rw [final_call_apiCalls]; simp
          · simp only [hf, if_false, Bool.false_eq_true]
            refine le_trans (ih _ _ _ _) ?_
            simp
            omega
      · simp only [hs, if_false]; rw [return_direct_apiCalls]; simp

/-- The tool-results list carries exactly the identifiers of the tool-invocation
blocks, in block order. -/
theorem execute_tools_map_id (tm : ToolManager) (blocks : List ContentBlock) :
    (execute_tools tm blocks).1.map ToolResult.tool_use_id =
      blocks.filterMap (fun b => match b with
        | ContentBlock.tool_use i _ _ => some i
        | ContentBlock.text _ => none) := by
  induction blocks with
  | nil => rfl
  | cons b rest ih =>
    cases b with
    | text t => simpa [execute_tools] using ih
    | tool_use i n inp =>
      simp only [execute_tools, List.filterMap_cons]
      cases h : tm n inp <;> simp [h, ih]

/-- A failed round has at least one tool result (the failing block itself
received one). -/
theorem execute_tools_failed_ne_nil (tm : ToolManager) (blocks : List ContentBlock)
    (h : (execute_tools tm blocks).2 = true) : (execute_tools tm blocks).1 ≠ [] := by
  induction blocks with
  | nil => simp [execute_tools] at h
  | cons b rest ih =>
    cases b with
    | text t =>
      simp only [execute_tools] at h ⊢
      exact ih h
    | tool_use i n inp =>
      simp only [execute_tools]
      cases he : tm n inp <;> simp [he]

/-- A round whose response holds only text blocks dispatches nothing: empty
results, no failure. -/
theorem execute_tools_all_text (tm : ToolManager) (blocks : List ContentBlock)
    (h : ∀ b ∈ blocks, ∃ t, b = ContentBlock.text t) :
    execute_tools tm blocks = ([], false) := by
  induction blocks with
  | nil => rfl
  | cons b rest ih =>
    obtain ⟨t, rfl⟩ := h b (List.mem_cons_self b rest)
    simp only [execute_tools]
    exact ih (fun x hx => h x (List.mem_cons_of_mem _ hx))

/-- A raised dispatch fault is caught and converted into a `ToolResult` carrying
the failure string, and processing continues with the remaining blocks. -/
theorem execute_tools_error_cons (tm : ToolManager) (i n : String)
    (inp : List (String × String)) (rest : List ContentBlock) (e : String)
    (h : tm n inp = Except.error e) :
    execute_tools tm (ContentBlock.tool_use i n inp :: rest) =
      (⟨i, "Tool execution failed: " ++ e⟩ :: (execute_tools tm rest).1, true) := by
  simp [execute_tools, h]

/-- A successful dispatch contributes one `ToolResult` carrying the returned
text. -/
theorem execute_tools_ok_cons (tm : ToolManager) (i n : String)
    (inp : List (String × String)) (rest : List ContentBlock) (t : String)
    (h : tm n inp = Except.ok t) :
    execute_tools tm (ContentBlock.tool_use i n inp :: rest) =
      (⟨i, t⟩ :: (execute_tools tm rest).1, (execute_tools tm rest).2) := by
  simp [execute_tools, h]

/-- One loop iteration when the inference call raises: propagate at `round_count
= 0`, else return the round-stamped error string. -/
theorem run_rounds_succ_api_error (sys : String) (tp : Option (List String))
    (tm : Option ToolManager) (api : Nat → Except String Response)
    (fuel rc ci : Nat) (msgs : List Message) (tr : List ApiParams)
    (e : String) (h : api ci = Except.error e) :
    run_rounds sys tp tm api (fuel + 1) rc ci msgs tr =
      (if rc = 0 then ⟨Except.error e, tr ++ [⟨msgs, sys, tp⟩], rc⟩
       else ⟨Except.ok ("Error in round " ++ toString (rc + 1) ++ ": " ++ e),
             tr ++ [⟨msgs, sys, tp⟩], rc⟩) := by
  simp only [run_rounds, h]

/-- One loop iteration when the response does not signal tool use: the
direct-return path. -/
theorem run_rounds_succ_no_tool (sys : String) (tp : Option (List String))
    (tm : Option ToolManager) (api : Nat → Except String Response)
    (fuel rc ci : Nat) (msgs : List Message) (tr : List ApiParams)
    (r : Response) (h : api ci = Except.ok r) (hs : r.stop_reason ≠ "tool_use") :
    run_rounds sys tp tm api (fuel + 1) rc ci msgs tr =
      return_direct r.content (tr ++ [⟨msgs, sys, tp⟩]) rc := by
  simp only [run_rounds, h, hs, if_false]

/-- One loop iteration when no tool manager was supplied: the direct-return path
regardless of the stop reason. -/
theorem run_rounds_succ_no_mgr (sys : String) (tp : Option (List String))
    (api : Nat → Except String Response)
    (fuel rc ci : Nat) (msgs : List Message) (tr : List ApiParams)
    (r : Response) (h : api ci = Except.ok r) :
    run_rounds sys tp none api (fuel + 1) rc ci msgs tr =
      return_direct r.content (tr ++ [⟨msgs, sys, tp⟩]) rc := by
  by_cases hs : r.stop_reason = "tool_use" <;> simp only [run_rounds, h, hs, if_false, if_true]

/-- One loop iteration of a successful tool round: append the assistant message
and (if non-empty) the combined tool-results message, then continue with
incremented `round_count`. -/
theorem run_rounds_succ_tool_ok (sys : String) (tp : Option (List String))
    (mgr : ToolManager) (api : Nat → Except String Response)
    (fuel rc ci : Nat) (msgs : List Message) (tr : List ApiParams)
    (r : Response) (h : api ci = Except.ok r) (hs : r.stop_reason = "tool_use")
    (hf : (execute_tools mgr r.content).2 = false) :
    run_rounds sys tp (some mgr) api (fuel + 1) rc ci msgs tr =
      run_rounds sys tp (some mgr) api fuel (rc + 1) (ci + 1)
        ((msgs ++ [⟨"assistant", MessageContent.blocks r.content⟩]) ++
          (if (execute_tools mgr r.content).1.isEmpty then []
           else [⟨"user", MessageContent.toolResults (execute_tools mgr r.content).1⟩]))
        (tr ++ [⟨msgs, sys, tp⟩]) := by
  simp only [run_rounds, h, hs, if_true, hf]
  by_cases he : (execute_tools mgr r.content).1.isEmpty <;>
    simp [he, List.append_assoc]

/-- One loop iteration of a failed tool round: append the assistant message and
the combined tool-results message, then break straight to the final
synthesis call. -/
theorem run_rounds_succ_tool_failed (sys : String) (tp : Option (List String))
    (mgr : ToolManager) (api : Nat → Except String Response)
    (fuel rc ci : Nat) (msgs : List Message) (tr : List ApiParams)
    (r : Response) (h : api ci = Except.ok r) (hs : r.stop_reason = "tool_use")
    (hf : (execute_tools mgr r.content).2 = true) :
    run_rounds sys tp (some mgr) api (fuel + 1) rc ci msgs tr =
      final_call sys
        (msgs ++ [⟨"assistant", MessageContent.blocks r.content⟩,
                  ⟨"user", MessageContent.toolResults (execute_tools mgr r.content).1⟩])
        api (ci + 1) (tr ++ [⟨msgs, sys, tp⟩]) (rc + 1) := by
  have hne : (execute_tools mgr r.content).1 ≠ [] := execute_tools_failed_ne_nil mgr r.content hf
  simp only [run_rounds, h, hs, if_true, hf]
  simp [List.isEmpty_iff, hne]

/-- The final synthesis call preserves the system content of every recorded
call. -/
theorem final_call_system (sys : String) (msgs : List Message)
    (api : Nat → Except String Response) (ci : Nat) (tr : List ApiParams) (rc : Nat)
    (htr : ∀ p ∈ tr, p.system = sys) :
    ∀ p ∈ (final_call sys msgs api ci tr rc).apiCalls, p.system = sys := by
  rw [final_call_apiCalls]
  intro p hp
  rcases List.mem_append.mp hp with h | h
  · exact htr p h
  · simp at h
    rw [h]

/-- Every inference call of the loop carries the same system content. -/
theorem run_rounds_system (sys : String) (tp : Option (List String))
    (tm : Option ToolManager) (api : Nat → Except String Response) :
    ∀ (fuel rc ci : Nat) (msgs : List Message) (tr : List ApiParams),
    (∀ p ∈ tr, p.system = sys) →
    ∀ p ∈ (run_rounds sys tp tm api fuel rc ci msgs tr).apiCalls, p.system = sys := by
  intro fuel
  induction fuel with
  | zero =>
    intro rc ci msgs tr htr
    exact final_call_system sys msgs api ci tr rc htr
  | succ fuel ih =>
    intro rc ci msgs tr htr
    have htr2 : ∀ p ∈ tr ++ [ApiParams.mk msgs sys tp], p.system = sys := by
      intro p hp
      rcases List.mem_append.mp hp with h | h
      · exact htr p h
      · simp at h
        rw [h]
    simp only [run_rounds]
    cases hapi : api ci with
    | error e =>
      by_cases hr : rc = 0 <;> simp only [hr, if_true, if_false] <;> exact htr2
    | ok resp =>
      by_cases hs : resp.stop_reason = "tool_use"
      · simp only [hs, if_true]
        cases tm with
        | none =>
          rw [return_direct_apiCalls]
          exact htr2
        | some mgr =>
          by_cases hf : (execute_tools mgr resp.content).2
          · simp only [hf, if_true]
            exact final_call_system sys _ api _ _ _ htr2
          · simp only [hf, if_false, Bool.false_eq_true]
            exact ih _ _ _ _ htr2
      · simp only [hs, if_false]
        rw [return_direct_apiCalls]
        exact htr2

/-- The first inference call of the loop carries the entry messages, the system
content and the tool catalog. -/
theorem run_rounds_head (sys : String) (tp : Option (List String))
    (tm : Option ToolManager) (api : Nat → Except String Response)
    (fuel rc ci : Nat) (msgs : List Message) (tr : List ApiParams) :
    ∃ rest, (run_rounds sys tp tm api (fuel + 1) rc ci msgs tr).apiCalls =
      tr ++ ApiParams.mk msgs sys tp :: rest := by
  simp only [run_rounds]
  cases hapi : api ci with
  | error e =>
    by_cases hr : rc = 0 <;> simp [hr]
  | ok resp =>
    by_cases hs : resp.stop_reason = "tool_use"
    · simp only [hs, if_true]
      cases tm with
      | none =>
        rw [return_direct_apiCalls]
        exact ⟨[], by simp⟩
      | some mgr =>
        by_cases hf : (execute_tools mgr resp.content).2
        · simp only [hf, if_true]
          rw [final_call_apiCalls, List.append_assoc]
          exact ⟨_, rfl⟩
        · simp only [hf, if_false, Bool.false_eq_true]
          rw [run_rounds_apiCalls_accum sys tp (some mgr) api fuel _ _ _ (tr ++ [ApiParams.mk msgs sys tp]), List.append_assoc]
          exact ⟨_, rfl⟩
    · simp only [hs, if_false]
      rw [return_direct_apiCalls]
      exact ⟨[], by simp⟩


/-!
The claims.
-/

/-- Claim C1: For every invocation of generate_response with a tool catalog and
tool manager supplied, at most two tool-dispatch rounds occur (the round
counter never exceeds 2); once the budget is exhausted without an early
terminal return, exactly one additional inference call is issued with the
accumulated message sequence and the same system context but without the
tool catalog, so a run requiring two tool rounds makes exactly three
inference calls in total. -/
theorem c1_round_budget (query : String) (hist : Option String)
    (tools : Option (List String)) (mgr : ToolManager)
    (api : Nat → Except String Response) (r0 r1 : Response)
    (h0 : api 0 = Except.ok r0) (hs0 : r0.stop_reason = "tool_use")
    (hf0 : (execute_tools mgr r0.content).2 = false)
    (h1 : api 1 = Except.ok r1) (hs1 : r1.stop_reason = "tool_use")
    (hf1 : (execute_tools mgr r1.content).2 = false) :
    (∀ (q : String) (h : Option String) (t : Option (List String)) (m : Option ToolManager)
       (a : Nat → Except String Response),
       (generate_response q h t m a).rounds ≤ max_rounds ∧
       (generate_response q h t m a).apiCalls.length ≤ 3) ∧
    (generate_response query hist tools (some mgr) api).rounds = 2 ∧
    (generate_response query hist tools (some mgr) api).apiCalls =
      [⟨[⟨"user", MessageContent.text query⟩], build_system_content hist, tools_param tools⟩,
       ⟨([⟨"user", MessageContent.text query⟩] ++
           [⟨"assistant", MessageContent.blocks r0.content⟩]) ++
          (if (execute_tools mgr r0.content).1.isEmpty then []
           else [⟨"user", MessageContent.toolResults (execute_tools mgr r0.content).1⟩]),
        build_system_content hist, tools_param tools⟩,
       ⟨((([⟨"user", MessageContent.text query⟩] ++
             [⟨"assistant", MessageContent.blocks r0.content⟩]) ++
            (if (execute_tools mgr r0.content).1.isEmpty then []
             else [⟨"user", MessageContent.toolResults (execute_tools mgr r0.content).1⟩])) ++
           [⟨"assistant", MessageContent.blocks r1.content⟩]) ++
          (if (execute_tools mgr r1.content).1.isEmpty then []
           else [⟨"user", MessageContent.toolResults (execute_tools mgr r1.content).1⟩]),
        build_system_content hist, none⟩] := by
  have hrun : generate_response query hist tools (some mgr) api =
      final_call (build_system_content hist)
        ((([⟨"user", MessageContent.text query⟩] ++
             [⟨"assistant", MessageContent.blocks r0.content⟩]) ++
            (if (execute_tools mgr r0.content).1.isEmpty then []
             else [⟨"user", MessageContent.toolResults (execute_tools mgr r0.content).1⟩])) ++
           [⟨"assistant", MessageContent.blocks r1.content⟩] ++
          (if (execute_tools mgr r1.content).1.isEmpty then []
           else [⟨"user", MessageContent.toolResults (execute_tools mgr r1.content).1⟩]))
        api 2
        [⟨[⟨"user", MessageContent.text query⟩], build_system_content hist, tools_param tools⟩,
         ⟨([⟨"user", MessageContent.text query⟩] ++
             [⟨"assistant", MessageContent.blocks r0.content⟩]) ++
            (if (execute_tools mgr r0.content).1.isEmpty then []
             else [⟨"user", MessageContent.toolResults (execute_tools mgr r0.content).1⟩]),
          build_system_content hist, tools_param tools⟩] 2 := by
    unfold generate_response max_rounds
    rw [run_rounds_succ_tool_ok _ _ _ _ _ _ _ _ _ r0 h0 hs0 hf0]
    rw [run_rounds_succ_tool_ok _ _ _ _ _ _ _ _ _ r1 h1 hs1 hf1]
    simp [run_rounds]
  refine ⟨?_, ?_, ?_⟩
  · intro q h t m a
    constructor
    · unfold generate_response
      simpa using run_rounds_rounds_le (build_system_content h) (tools_param t) m a max_rounds 0 0
        [⟨"user", MessageContent.text q⟩] []
    · unfold generate_response max_rounds
      simpa using run_rounds_apiCalls_len (build_system_content h) (tools_param t) m a 2 0 0
        [⟨"user", MessageContent.text q⟩] []
  · rw [hrun, final_call_rounds]
  · rw [hrun, final_call_apiCalls]
    simp

/-- Witness for C1 at a concrete two-tool-round run. -/
theorem c1_witness :
    c1api 0 = Except.ok c1r0 ∧ c1api 1 = Except.ok c1r1 ∧
    c1r0.stop_reason = "tool_use" ∧ c1r1.stop_reason = "tool_use" ∧
    (generate_response "Compare lesson 2 of MCP with its outline" none
       (some ["search_course_content", "get_course_outline"]) (some c1mgr) c1api).rounds = 2 ∧
    (generate_response "Compare lesson 2 of MCP with its outline" none
       (some ["search_course_content", "get_course_outline"]) (some c1mgr) c1api).apiCalls.length = 3 := by
  have h := c1_round_budget "Compare lesson 2 of MCP with its outline" none
    (some ["search_course_content", "get_course_outline"]) c1mgr c1api c1r0 c1r1
    rfl rfl rfl rfl rfl rfl
  exact ⟨rfl, rfl, rfl, rfl, h.2.1, by rw [h.2.2]; rfl⟩

/-- Claim C2: For every invocation of generate_response: if the very first
inference call fails, the failure propagates to the caller unhandled; if an
inference call on any later round fails (after at least one tool round has
completed), generate_response does not propagate the fault but returns a
synthesized error string embedding the round number and the underlying
cause, and a failure of the final synthesis call likewise returns a
descriptive error string rather than raising. -/
theorem c2_error_propagation :
    (∀ (query : String) (hist : Option String) (tools : Option (List String))
       (tm : Option ToolManager) (api : Nat → Except String Response) (e : String),
       api 0 = Except.error e →
       (generate_response query hist tools tm api).outcome = Except.error e) ∧
    (∀ (query : String) (hist : Option String) (tools : Option (List String))
       (mgr : ToolManager) (api : Nat → Except String Response) (r0 : Response) (e : String),
       api 0 = Except.ok r0 → r0.stop_reason = "tool_use" →
       (execute_tools mgr r0.content).2 = false → api 1 = Except.error e →
       (generate_response query hist tools (some mgr) api).outcome =
         Except.ok ("Error in round 2: " ++ e)) ∧
    (∀ (query : String) (hist : Option String) (tools : Option (List String))
       (mgr : ToolManager) (api : Nat → Except String Response) (r0 r1 : Response) (e : String),
       api 0 = Except.ok r0 → r0.stop_reason = "tool_use" →
       (execute_tools mgr r0.content).2 = false →
       api 1 = Except.ok r1 → r1.stop_reason = "tool_use" →
       (execute_tools mgr r1.content).2 = false → api 2 = Except.error e →
       (generate_response query hist tools (some mgr) api).outcome =
         Except.ok ("Error generating final response: " ++ e)) := by
  refine ⟨?_, ?_, ?_⟩
  · intro query hist tools tm api e h
    unfold generate_response max_rounds
    rw [run_rounds_succ_api_error _ _ _ _ _ _ _ _ _ e h]
    simp
  · intro query hist tools mgr api r0 e h0 hs0 hf0 h1
    unfold generate_response max_rounds
    rw [run_rounds_succ_tool_ok _ _ _ _ _ _ _ _ _ r0 h0 hs0 hf0]
    rw [run_rounds_succ_api_error _ _ _ _ _ _ _ _ _ e h1]
    simp
    rfl
  · intro query hist tools mgr api r0 r1 e h0 hs0 hf0 h1 hs1 hf1 h2
    unfold generate_response max_rounds
    rw [run_rounds_succ_tool_ok _ _ _ _ _ _ _ _ _ r0 h0 hs0 hf0]
    rw [run_rounds_succ_tool_ok _ _ _ _ _ _ _ _ _ r1 h1 hs1 hf1]
    show (final_call _ _ _ _ _ _).outcome = _
    simp only [final_call, h2]

/-- Witness for C2 at concrete first-call-fails and second-call-fails runs. -/
theorem c2_witness :
    c2api_first_fails 0 = Except.error "connection refused" ∧
    (generate_response "q" none (some ["search_course_content"]) (some c2mgr)
       c2api_first_fails).outcome = Except.error "connection refused" ∧
    c2api_second_fails 1 = Except.error "rate limited" ∧
    (generate_response "q" none (some ["search_course_content"]) (some c2mgr)
       c2api_second_fails).outcome = Except.ok ("Error in round 2: " ++ "rate limited") :=
  ⟨rfl,
   c2_error_propagation.1 "q" none (some ["search_course_content"]) (some c2mgr)
     c2api_first_fails "connection refused" rfl,
   rfl,
   c2_error_propagation.2.1 "q" none (some ["search_course_content"]) c2mgr
     c2api_second_fails c2respTool "rate limited" rfl rfl rfl rfl⟩

/-- Claim C3: For every tool round in which some tool dispatch raises a fault:
the fault is caught at the dispatch site and converted into a ToolResult
whose content is a human-readable failure string, every remaining
tool-invocation block in that round is still processed before the failure
takes effect (process-all-then-break), the combined results message is
appended, no further tool round is attempted, and exactly one more inference
call (the final synthesis) follows, whose text is returned instead of a raw
fault. -/
theorem c3_dispatch_fault_round (sys : String) (tp : Option (List String))
    (mgr : ToolManager) (api : Nat → Except String Response)
    (fuel rc ci : Nat) (msgs : List Message) (tr : List ApiParams)
    (r rf : Response) (t : String)
    (h : api ci = Except.ok r) (hs : r.stop_reason = "tool_use")
    (hf : (execute_tools mgr r.content).2 = true)
    (h2 : api (ci + 1) = Except.ok rf) (ht : first_block_text rf.content = Except.ok t) :
    (∀ (m : ToolManager) (i n : String) (inp : List (String × String))
       (rest : List ContentBlock) (e : String), m n inp = Except.error e →
       execute_tools m (ContentBlock.tool_use i n inp :: rest) =
         (⟨i, "Tool execution failed: " ++ e⟩ :: (execute_tools m rest).1, true)) ∧
    (∀ (m : ToolManager) (blocks : List ContentBlock),
       (execute_tools m blocks).1.map ToolResult.tool_use_id =
         blocks.filterMap (fun b => match b with
           | ContentBlock.tool_use i _ _ => some i
           | ContentBlock.text _ => none)) ∧
    run_rounds sys tp (some mgr) api (fuel + 1) rc ci msgs tr =
      ⟨Except.ok t,
       tr ++ [⟨msgs, sys, tp⟩,
              ⟨msgs ++ [⟨"assistant", MessageContent.blocks r.content⟩,
                        ⟨"user", MessageContent.toolResults (execute_tools mgr r.content).1⟩],
               sys, none⟩],
       rc + 1⟩ := by
  refine ⟨execute_tools_error_cons, execute_tools_map_id, ?_⟩
  rw [run_rounds_succ_tool_failed _ _ _ _ _ _ _ _ _ r h hs hf]
  simp only [final_call, h2, ht]
  simp

/-- Witness for C3 at a concrete run whose only tool round faults on both
dispatches. -/
theorem c3_witness :
    c3api 0 = Except.ok c3resp ∧ (execute_tools c3mgr c3resp.content).2 = true ∧
    (generate_response "q" none (some ["search_course_content"]) (some c3mgr) c3api).outcome =
      Except.ok "degraded synthesis" ∧
    (generate_response "q" none (some ["search_course_content"]) (some c3mgr) c3api).apiCalls.length = 2 := by
  refine ⟨rfl, rfl, ?_, ?_⟩
  · have h := (c3_dispatch_fault_round (build_system_content none)
      (tools_param (some ["search_course_content"])) c3mgr c3api 1 0 0
      [⟨"user", MessageContent.text "q"⟩] [] c3resp
      ⟨"end_turn", [ContentBlock.text "degraded synthesis"]⟩ "degraded synthesis"
      rfl rfl rfl rfl rfl).2.2
    unfold generate_response max_rounds
    rw [h]
  · have h := (c3_dispatch_fault_round (build_system_content none)
      (tools_param (some ["search_course_content"])) c3mgr c3api 1 0 0
      [⟨"user", MessageContent.text "q"⟩] [] c3resp
      ⟨"end_turn", [ContentBlock.text "degraded synthesis"]⟩ "degraded synthesis"
      rfl rfl rfl rfl rfl).2.2
    unfold generate_response max_rounds
    rw [h]
    rfl

/-- Claim C4: In every tool round, each tool-invocation block of the assistant
response receives exactly one ToolResult whose identifier matches that
block's identifier, the ToolResults appear in the same order as the
invocation blocks, and all of them are appended as one combined user message
after the assistant's tool-request message and before any further inference
call. -/
theorem c4_tool_results_matching (query : String) (hist : Option String)
    (tools : Option (List String)) (mgr : ToolManager)
    (api : Nat → Except String Response) (r0 : Response)
    (h0 : api 0 = Except.ok r0) (hs0 : r0.stop_reason = "tool_use")
    (hf0 : (execute_tools mgr r0.content).2 = false)
    (hne : (execute_tools mgr r0.content).1 ≠ []) :
    (∀ (m : ToolManager) (blocks : List ContentBlock),
       (execute_tools m blocks).1.map ToolResult.tool_use_id =
         blocks.filterMap (fun b => match b with
           | ContentBlock.tool_use i _ _ => some i
           | ContentBlock.text _ => none)) ∧
    (∃ rest, (generate_response query hist tools (some mgr) api).apiCalls =
       ⟨[⟨"user", MessageContent.text query⟩], build_system_content hist, tools_param tools⟩ ::
       ⟨[⟨"user", MessageContent.text query⟩] ++
          [⟨"assistant", MessageContent.blocks r0.content⟩,
           ⟨"user", MessageContent.toolResults (execute_tools mgr r0.content).1⟩],
        build_system_content hist, tools_param tools⟩ :: rest) := by
  refine ⟨execute_tools_map_id, ?_⟩
  unfold generate_response max_rounds
  rw [run_rounds_succ_tool_ok _ _ _ _ _ _ _ _ _ r0 h0 hs0 hf0]
  simp only [List.isEmpty_iff, hne, if_false]
  have h := run_rounds_head (build_system_content hist) (tools_param tools) (some mgr) api 0 1 1
    ([⟨"user", MessageContent.text query⟩] ++ [⟨"assistant", MessageContent.blocks r0.content⟩] ++
      [⟨"user", MessageContent.toolResults (execute_tools mgr r0.content).1⟩])
    ([] ++ [⟨[⟨"user", MessageContent.text query⟩], build_system_content hist, tools_param tools⟩])
  obtain ⟨rest, hrest⟩ := h
  refine ⟨rest, ?_⟩
  rw [hrest]
  simp

/-- Witness for C4 at a concrete mixed-content tool round. -/
theorem c4_witness :
    c4api 0 = Except.ok c4resp ∧
    (execute_tools c4mgr c4resp.content).2 = false ∧
    (execute_tools c4mgr c4resp.content).1.map ToolResult.tool_use_id =
      ["toolu_05", "toolu_06"] :=
  ⟨rfl, rfl, by
    have h := (c4_tool_results_matching "q" none (some ["search_course_content"]) c4mgr c4api
      c4resp rfl rfl rfl (by decide)).1
    rw [h]
    rfl⟩

/-- Claim C5: For every invocation of generate_response where the first
inference response does not signal tool use, exactly one inference call
occurs — regardless of whether a tool catalog or tool manager was supplied —
and the text of that response's first content block is returned immediately
and verbatim. -/
theorem c5_no_tool_single_call (query : String) (hist : Option String)
    (tools : Option (List String)) (tm : Option ToolManager)
    (api : Nat → Except String Response) (r : Response) (t : String) (rest : List ContentBlock)
    (h : api 0 = Except.ok r) (hs : r.stop_reason ≠ "tool_use")
    (hc : r.content = ContentBlock.text t :: rest) :
    (generate_response query hist tools tm api).outcome = Except.ok t ∧
    (generate_response query hist tools tm api).apiCalls =
      [⟨[⟨"user", MessageContent.text query⟩], build_system_content hist, tools_param tools⟩] := by
  unfold generate_response max_rounds
  rw [run_rounds_succ_no_tool _ _ _ _ _ _ _ _ _ r h hs]
  unfold return_direct
  rw [hc]
  simp [first_block_text]

/-- Witness for C5 at a concrete no-tool run. -/
theorem c5_witness :
    c5api 0 = Except.ok c5resp ∧ c5resp.stop_reason ≠ "tool_use" ∧
    (generate_response "What is machine learning?" none none none c5api).outcome =
      Except.ok "Test response" :=
  ⟨rfl, by decide,
   (c5_no_tool_single_call "What is machine learning?" none none none c5api c5resp
      "Test response" [] rfl (by decide) rfl).1⟩

/-- Claim C6, counterexample: the claim says the first AVAILABLE text block is
returned when a tool-invocation request arrives with no tool manager; but
the source returns `response.content[0].text`, which faults when the first
block is the tool-invocation block even though a text block is available
later, and at round 0 the fault escapes to the caller. -/
theorem c6_counterexample :
    c6resp.stop_reason = "tool_use" ∧
    spec_first_available_text c6resp.content = some "hello" ∧
    (generate_response "q" none none none c6api).outcome =
      Except.error "ToolUseBlock object has no attribute text" ∧
    (generate_response "q" none none none c6api).outcome ≠ Except.ok "hello" := by
  refine ⟨rfl, rfl, rfl, ?_⟩
  intro hcon
  rw [show (generate_response "q" none none none c6api).outcome =
      Except.error "ToolUseBlock object has no attribute text" from rfl] at hcon
  exact Except.noConfusion hcon

/-- Claim C6, amended: for every inference response that signals a
tool-invocation request when no registry (tool manager) was supplied,
generate_response treats the response as terminal and returns the text of
its FIRST content block (well-defined when that block is a text block),
without dispatching any tool, without a further inference call, and without
counting a round. -/
theorem c6_no_manager_first_block (query : String) (hist : Option String)
    (tools : Option (List String)) (api : Nat → Except String Response)
    (r : Response) (t : String) (rest : List ContentBlock)
    (h : api 0 = Except.ok r) (hs : r.stop_reason = "tool_use")
    (hc : r.content = ContentBlock.text t :: rest) :
    (generate_response query hist tools none api).outcome = Except.ok t ∧
    (generate_response query hist tools none api).apiCalls =
      [⟨[⟨"user", MessageContent.text query⟩], build_system_content hist, tools_param tools⟩] ∧
    (generate_response query hist tools none api).rounds = 0 := by
  unfold generate_response max_rounds
  rw [run_rounds_succ_no_mgr _ _ _ _ _ _ _ _ r h]
  unfold return_direct
  rw [hc]
  simp [first_block_text]

/-- Witness for the amended C6 at a concrete tool-request-without-manager run. -/
theorem c6_witness :
    c6api2 0 = Except.ok c6resp2 ∧ c6resp2.stop_reason = "tool_use" ∧
    (generate_response "q" none none none c6api2).outcome = Except.ok "partial answer" :=
  ⟨rfl, rfl,
   (c6_no_manager_first_block "q" none none c6api2 c6resp2 "partial answer" [] rfl rfl rfl).1⟩

/-- Claim C7: For every invocation of generate_response, the system context sent
to inference is composed as follows: when a history string is provided, it
equals the fixed instruction preamble followed by a delimited
previous-conversation section containing the history; when no history is
provided, it equals the preamble verbatim, and the message sequence is
initialized with a single user message containing exactly the query. -/
theorem c7_system_composition (query : String) (hist : Option String) (s : String)
    (tools : Option (List String)) (tm : Option ToolManager)
    (api : Nat → Except String Response) (hs : s ≠ "") :
    build_system_content (some s) = SYSTEM_PROMPT ++ "\n\nPrevious conversation:\n" ++ s ∧
    build_system_content none = SYSTEM_PROMPT ∧
    (∀ p ∈ (generate_response query hist tools tm api).apiCalls,
       p.system = build_system_content hist) ∧
    (∃ rest, (generate_response query hist tools tm api).apiCalls =
       ApiParams.mk [⟨"user", MessageContent.text query⟩] (build_system_content hist)
         (tools_param tools) :: rest) := by
  refine ⟨by simp [build_system_content, hs], rfl, ?_, ?_⟩
  · exact run_rounds_system _ _ _ _ _ _ _ _ _ (by simp)
  · have h := run_rounds_head (build_system_content hist) (tools_param tools) tm api 1 0 0
      [⟨"user", MessageContent.text query⟩] []
    simpa [generate_response, max_rounds] using h

/-- Witness for C7 at a concrete non-empty history. -/
theorem c7_witness :
    ("prior exchange" : String) ≠ "" ∧
    build_system_content (some "prior exchange") =
      SYSTEM_PROMPT ++ "\n\nPrevious conversation:\n" ++ "prior exchange" :=
  ⟨by decide,
   (c7_system_composition "q" (some "prior exchange") "prior exchange" none none c7api
      (by decide)).1⟩

/-- Claim C8: Every text-returning path of generate_response (the no-tool
terminal return and the final-synthesis return) reads the text field of the
response's first content block without any guard; the extraction is
well-defined, and the error branch of a total embedding unreachable, only
under the precondition that the response's content sequence is non-empty and
its first block is a text block — for a response violating this precondition
the operation faults. -/
theorem c8_unguarded_first_text :
    (∀ blocks, (∃ t, first_block_text blocks = Except.ok t) ↔
       (∃ t rest, blocks = ContentBlock.text t :: rest)) ∧
    (∀ (query : String) (hist : Option String) (tools : Option (List String))
       (tm : Option ToolManager) (api : Nat → Except String Response) (r : Response) (e : String),
       api 0 = Except.ok r → r.stop_reason ≠ "tool_use" →
       first_block_text r.content = Except.error e →
       (generate_response query hist tools tm api).outcome = Except.error e) ∧
    (∀ (sys : String) (msgs : List Message) (api : Nat → Except String Response)
       (ci : Nat) (tr : List ApiParams) (rc : Nat) (r : Response) (e : String),
       api ci = Except.ok r → first_block_text r.content = Except.error e →
       (final_call sys msgs api ci tr rc).outcome =
         Except.ok ("Error generating final response: " ++ e)) := by
  refine ⟨?_, ?_, ?_⟩
  · intro blocks
    constructor
    · rintro ⟨t, ht⟩
      match blocks, ht with
      | ContentBlock.text t0 :: rest, h =>
        exact ⟨t0, rest, rfl⟩
    · rintro ⟨t, rest, rfl⟩
      exact ⟨t, rfl⟩
  · intro query hist tools tm api r e h hs he
    unfold generate_response max_rounds
    rw [run_rounds_succ_no_tool _ _ _ _ _ _ _ _ _ r h hs]
    unfold return_direct
    rw [he]
    simp
  · intro sys msgs api ci tr rc r e h he
    simp only [final_call, h, he]

/-- Witness for C8 at a concrete empty-content terminal response. -/
theorem c8_witness :
    c8api 0 = Except.ok c8resp ∧
    first_block_text c8resp.content = Except.error "list index out of range" ∧
    (generate_response "q" none none none c8api).outcome =
      Except.error "list index out of range" :=
  ⟨rfl, rfl,
   c8_unguarded_first_text.2.1 "q" none none none c8api c8resp "list index out of range"
     rfl (by decide) rfl⟩

/-- Claim C9: If an inference response signals tool use and a tool manager is
supplied but the response contains no tool-invocation-typed content blocks,
generate_response still increments the round counter and appends the
assistant message, appends no tool-results user message at all (rather than
an empty one), and proceeds to the next inference call; two such responses
exhaust the round budget and trigger the tool-free synthesis call. -/
theorem c9_toolless_tool_use_rounds (query : String) (hist : Option String)
    (tools : Option (List String)) (mgr : ToolManager)
    (api : Nat → Except String Response) (r0 r1 : Response)
    (h0 : api 0 = Except.ok r0) (hs0 : r0.stop_reason = "tool_use")
    (hb0 : ∀ b ∈ r0.content, ∃ t, b = ContentBlock.text t)
    (h1 : api 1 = Except.ok r1) (hs1 : r1.stop_reason = "tool_use")
    (hb1 : ∀ b ∈ r1.content, ∃ t, b = ContentBlock.text t) :
    (generate_response query hist tools (some mgr) api).rounds = 2 ∧
    (generate_response query hist tools (some mgr) api).apiCalls =
      [⟨[⟨"user", MessageContent.text query⟩], build_system_content hist, tools_param tools⟩,
       ⟨[⟨"user", MessageContent.text query⟩,
         ⟨"assistant", MessageContent.blocks r0.content⟩],
        build_system_content hist, tools_param tools⟩,
       ⟨[⟨"user", MessageContent.text query⟩,
         ⟨"assistant", MessageContent.blocks r0.content⟩,
         ⟨"assistant", MessageContent.blocks r1.content⟩],
        build_system_content hist, none⟩] ∧
    (∀ p ∈ (generate_response query hist tools (some mgr) api).apiCalls,
       ∀ m ∈ p.messages, ∀ trs, m.content ≠ MessageContent.toolResults trs) := by
  have he0 := execute_tools_all_text mgr r0.content hb0
  have he1 := execute_tools_all_text mgr r1.content hb1
  have hrun : generate_response query hist tools (some mgr) api =
      final_call (build_system_content hist)
        [⟨"user", MessageContent.text query⟩,
         ⟨"assistant", MessageContent.blocks r0.content⟩,
         ⟨"assistant", MessageContent.blocks r1.content⟩] api 2
        [⟨[⟨"user", MessageContent.text query⟩], build_system_content hist, tools_param tools⟩,
         ⟨[⟨"user", MessageContent.text query⟩,
           ⟨"assistant", MessageContent.blocks r0.content⟩],
          build_system_content hist, tools_param tools⟩] 2 := by
    unfold generate_response max_rounds
    rw [run_rounds_succ_tool_ok _ _ _ _ _ _ _ _ _ r0 h0 hs0 (by rw [he0])]
    rw [run_rounds_succ_tool_ok _ _ _ _ _ _ _ _ _ r1 h1 hs1 (by rw [he1])]
    rw [he0, he1]
    simp [run_rounds]
  refine ⟨?_, ?_, ?_⟩
  · rw [hrun, final_call_rounds]
  · rw [hrun, final_call_apiCalls]
    simp
  · rw [hrun, final_call_apiCalls]
    intro p hp m hm trs
    fin_cases hp <;> fin_cases hm <;> simp

/-- Witness for C9 at a concrete run of two block-free tool-use rounds. -/
theorem c9_witness :
    c9api 0 = Except.ok c9resp0 ∧ c9api 1 = Except.ok c9resp1 ∧
    c9resp0.stop_reason = "tool_use" ∧
    (generate_response "q" none (some ["search_course_content"]) (some c9mgr) c9api).rounds = 2 ∧
    (generate_response "q" none (some ["search_course_content"]) (some c9mgr) c9api).apiCalls.length = 3 := by
  have h := c9_toolless_tool_use_rounds "q" none (some ["search_course_content"]) c9mgr c9api
    c9resp0 c9resp1 rfl rfl
    (by intro b hb; fin_cases hb; exact ⟨"thinking about tools", rfl⟩) rfl rfl
    (by intro b hb; fin_cases hb; exact ⟨"still thinking", rfl⟩)
  exact ⟨rfl, rfl, rfl, h.1, by rw [h.2.1]; rfl⟩

/-- Claim C10: When the conversation-history argument of generate_response is
the empty string, it is treated exactly as if no history were supplied: the
system content sent to every inference call equals the fixed preamble
verbatim, with no previous-conversation section. -/
theorem c10_empty_history (query : String) (tools : Option (List String))
    (tm : Option ToolManager) (api : Nat → Except String Response) :
    build_system_content (some "") = SYSTEM_PROMPT ∧
    generate_response query (some "") tools tm api = generate_response query none tools tm api ∧
    (∀ p ∈ (generate_response query (some "") tools tm api).apiCalls,
       p.system = SYSTEM_PROMPT) := by
  refine ⟨rfl, rfl, ?_⟩
  exact run_rounds_system SYSTEM_PROMPT _ _ _ _ _ _ _ _ (by simp)

/-- Witness for C10 at a concrete empty-history run. -/
theorem c10_witness :
    (∀ p ∈ (generate_response "q" (some "") none none c10api).apiCalls,
       p.system = SYSTEM_PROMPT) ∧
    generate_response "q" (some "") none none c10api =
      generate_response "q" none none none c10api :=
  ⟨(c10_empty_history "q" none none c10api).2.2,
   (c10_empty_history "q" none none c10api).2.1⟩
